import Mathlib

/-!
Verification of the task-state and recovery subsystem of `web_dashboard.py`.

This file shallowly embeds the data model and operations of the
`AutomationState` class, the `TaskStateManager` class, the
`automation_worker` loop, and the `/api/automate` and
`/api/automation/recover` route handlers, and proves or refutes the
spec's properties P1-P6 about them.

Conventions of the embedding:
- Python `set` objects of task indices are modelled as insertion-ordered
  duplicate-free lists (`setAdd` mirrors `set.add`); membership and
  serialization order then match CPython's behaviour for this usage.
- Wall-clock timestamps (`datetime.now().isoformat()`) are threaded as
  explicit `now : String` parameters.
- Python floats used for rates are modelled as `Rat`; the computations
  involved are exact on the claims checked here.
-/

namespace Xauto

/-- Python `str.strip()`: remove leading and trailing whitespace. Written
over the character list underlying `String` so that it evaluates by
kernel reduction. -/
def pyStrip (s : String) : String :=
  String.mk ((((s.data.dropWhile Char.isWhitespace).reverse).dropWhile
    Char.isWhitespace).reverse)

/-- One paired work item as built by `AutomationState._create_paired_tasks`
(`src/web_dashboard.py:712-718`). -/
structure PairedTask where
  index : Nat
  tweet_url : String
  comment : String
  original_tweet_index : Nat
  original_comment_index : Nat
deriving DecidableEq, Repr

/-- Body of the loop of `_create_paired_tasks` at one position `i`
(`src/web_dashboard.py:707-718`): take the positional target and comment
(empty string when out of range), and emit an item only when the trimmed
target is non-empty, storing the trimmed strings and the position `i` as
the stable index. -/
def pairedTaskAt (tweet_links reply_comments : List String) (i : Nat) : Option PairedTask :=
  let tweet_url := tweet_links.getD i ""
  let comment := reply_comments.getD i ""
  if pyStrip tweet_url ≠ "" then
    some { index := i, tweet_url := pyStrip tweet_url, comment := pyStrip comment,
           original_tweet_index := i, original_comment_index := i }
  else
    none

/-- `AutomationState._create_paired_tasks` (`src/web_dashboard.py:700-720`):
iterate `i` over `range(max(len(tweet_links), len(reply_comments)))` and
collect the emitted items in order. -/
def createPairedTasks (tweet_links reply_comments : List String) : List PairedTask :=
  (List.range (max tweet_links.length reply_comments.length)).filterMap
    (pairedTaskAt tweet_links reply_comments)

/-- Python `set.add` on the insertion-ordered duplicate-free list model. -/
def setAdd (s : List Nat) (x : Nat) : List Nat :=
  if x ∈ s then s else s ++ [x]

/-- Python `set(xs)` built from a list, keeping first-occurrence order. -/
def setOfList (l : List Nat) : List Nat :=
  l.foldl setAdd []

/-- In-memory state of one automation job: the fields set by
`AutomationState.__init__` (`src/web_dashboard.py:677-698`). -/
structure AutomationState where
  task_id : String
  profile_name : String
  tweet_links : List String
  reply_comments : List String
  actions : List (String × Bool)
  min_wait : Nat
  max_wait : Nat
  max_retries : Nat
  paired_tasks : List PairedTask
  processed_tasks : List Nat
  successful_tasks : List Nat
  failed_tasks : List Nat
  current_index : Nat
  start_time : String
  last_updated : String
deriving DecidableEq, Repr

/-- `AutomationState.__init__` (`src/web_dashboard.py:677-698`): stores the
inputs, builds the paired tasks, and starts with empty progress sets. -/
def mkAutomationState (task_id profile_name : String)
    (tweet_links reply_comments : List String) (actions : List (String × Bool))
    (min_wait max_wait max_retries : Nat) (now : String) : AutomationState :=
  { task_id := task_id, profile_name := profile_name,
    tweet_links := tweet_links, reply_comments := reply_comments,
    actions := actions, min_wait := min_wait, max_wait := max_wait,
    max_retries := max_retries,
    paired_tasks := createPairedTasks tweet_links reply_comments,
    processed_tasks := [], successful_tasks := [], failed_tasks := [],
    current_index := 0, start_time := now, last_updated := now }

/-- `AutomationState.get_remaining_tasks` (`src/web_dashboard.py:722-724`):
`[task for i, task in enumerate(self.paired_tasks) if i not in self.processed_tasks]`.
Note that the filter tests the enumerate position `i`, not the stored
`task['index']`. -/
def getRemainingTasks (s : AutomationState) : List PairedTask :=
  s.paired_tasks.enum.filterMap
    (fun p => if p.1 ∈ s.processed_tasks then none else some p.2)

/-- The spec's `remaining` contract, stated for comparison with
`getRemainingTasks`: return the items whose stored `index` is not in the
processed set, preserving order. -/
def specRemaining (processed : List Nat) (tasks : List PairedTask) : List PairedTask :=
  tasks.filter (fun t => decide (t.index ∉ processed))

/-- `AutomationState.mark_task_processed` (`src/web_dashboard.py:726-733`):
add the index to `processed_tasks` and to `successful_tasks` or
`failed_tasks` according to `success`; nothing is ever removed. -/
def markTaskProcessed (s : AutomationState) (task_index : Nat) (success : Bool)
    (now : String) : AutomationState :=
  { s with
    processed_tasks := setAdd s.processed_tasks task_index,
    successful_tasks := if success then setAdd s.successful_tasks task_index
                        else s.successful_tasks,
    failed_tasks := if success then s.failed_tasks
                    else setAdd s.failed_tasks task_index,
    last_updated := now }

/-- Derived statistics returned by `AutomationState.get_progress_stats`
(`src/web_dashboard.py:735-753`). -/
structure Stats where
  total_tasks : Nat
  processed_count : Nat
  successful_count : Nat
  failed_count : Nat
  remaining_count : Int
  success_rate : Rat
  progress_percentage : Rat
deriving DecidableEq, Repr

/-- `AutomationState.get_progress_stats` (`src/web_dashboard.py:735-753`). -/
def getProgressStats (s : AutomationState) : Stats :=
  let total_tasks := s.paired_tasks.length
  let processed_count := s.processed_tasks.length
  let successful_count := s.successful_tasks.length
  let failed_count := s.failed_tasks.length
  { total_tasks := total_tasks, processed_count := processed_count,
    successful_count := successful_count, failed_count := failed_count,
    remaining_count := (total_tasks : Int) - (processed_count : Int),
    success_rate := if total_tasks > 0
      then (successful_count : Rat) / (total_tasks : Rat) * 100 else 0,
    progress_percentage := if total_tasks > 0
      then (processed_count : Rat) / (total_tasks : Rat) * 100 else 0 }

/-- The serialized snapshot `state_data` written by
`AutomationState.save_state` (`src/web_dashboard.py:760-775`). -/
structure StateData where
  task_id : String
  profile_name : String
  paired_tasks : List PairedTask
  actions : List (String × Bool)
  min_wait : Nat
  max_wait : Nat
  max_retries : Nat
  processed_tasks : List Nat
  successful_tasks : List Nat
  failed_tasks : List Nat
  current_index : Nat
  start_time : String
  last_updated : String
  stats : Stats
deriving DecidableEq, Repr

/-- `AutomationState.save_state` (`src/web_dashboard.py:755-778`), as the
snapshot value it serializes (`list(set)` is the set's iteration order,
which is the insertion-ordered list of the model). -/
def saveState (s : AutomationState) : StateData :=
  { task_id := s.task_id, profile_name := s.profile_name,
    paired_tasks := s.paired_tasks, actions := s.actions,
    min_wait := s.min_wait, max_wait := s.max_wait,
    max_retries := s.max_retries,
    processed_tasks := s.processed_tasks,
    successful_tasks := s.successful_tasks,
    failed_tasks := s.failed_tasks,
    current_index := s.current_index, start_time := s.start_time,
    last_updated := s.last_updated, stats := getProgressStats s }

/-- `AutomationState.load_state` (`src/web_dashboard.py:780-822`) applied to
a parsed snapshot: rebuild the `tweet_links`/`reply_comments` lists from
the stored paired tasks, run the constructor on them, then overwrite
`paired_tasks` with the stored items and restore the three progress sets
(via Python `set(...)`), the cursor and the timestamps. -/
def loadState (d : StateData) (now : String) : AutomationState :=
  let tweet_links := d.paired_tasks.map (fun t => t.tweet_url)
  let reply_comments := d.paired_tasks.map (fun t => t.comment)
  let st := mkAutomationState d.task_id d.profile_name tweet_links reply_comments
    d.actions d.min_wait d.max_wait d.max_retries now
  { st with
    paired_tasks := d.paired_tasks,
    processed_tasks := setOfList d.processed_tasks,
    successful_tasks := setOfList d.successful_tasks,
    failed_tasks := setOfList d.failed_tasks,
    current_index := d.current_index,
    start_time := d.start_time,
    last_updated := d.last_updated }

/-- One `TaskStatusRecord` as stored by `TaskStateManager`
(`src/web_dashboard.py:1140-1150`): the `initial_task_data` dictionary of
`run_automation_async`, including the fields later mutated by
`update_task_status`. (`ttype` embeds the Python key `type`.) -/
structure TaskData where
  ttype : String
  status : String
  progress : Nat
  total : Nat
  current : Nat
  logs : List String
  start_time : String
  strategy : String
  actions_enabled : List (String × Bool)
deriving DecidableEq, Repr

/-- The `TaskStateManager.task_status` dictionary, as an association list
keyed by task id (`src/web_dashboard.py:176`). -/
abbrev TaskStore := List (String × TaskData)

/-- Python dictionary lookup `task_status.get(task_id)`
(`src/web_dashboard.py:227-229`). -/
def lookupTask : TaskStore → String → Option TaskData
  | [], _ => none
  | (k, v) :: rest, id => if k = id then some v else lookupTask rest id

/-- `TaskStateManager.add_task` (`src/web_dashboard.py:210-213`): dictionary
assignment `task_status[task_id] = task_data`, replacing any record already
stored under the same id. -/
def addTask : TaskStore → String → TaskData → TaskStore
  | [], id, d => [(id, d)]
  | (k, v) :: rest, id, d =>
      if k = id then (k, d) :: rest else (k, v) :: addTask rest id d

/-- `TaskStateManager.update_task` (`src/web_dashboard.py:215-219`): merge an
update into the stored record when the id is present, do nothing when it
is absent. The partial-dictionary update is embedded as the record
transformer `f`. -/
def updateTask : TaskStore → String → (TaskData → TaskData) → TaskStore
  | [], _, _ => []
  | (k, v) :: rest, id, f =>
      if k = id then (k, f v) :: rest else (k, v) :: updateTask rest id f

/-- Job id chosen by `run_automation_async`
(`src/web_dashboard.py:1132`): `f"automation_{int(time.time())}"`, a pure
function of the whole-second clock value `t`. -/
def jobId (t : Nat) : String :=
  "automation_" ++ toString t

/-- Snapshot file name used by `save_state`, `load_state` and `cleanup`
(`src/web_dashboard.py:757,783,826`). -/
def stateFileName (task_id : String) : String :=
  "automation_state_" ++ task_id ++ ".json"

/-- The `initial_task_data` record built by `run_automation_async`
(`src/web_dashboard.py:1140-1150`). -/
def initialTaskData (state : AutomationState) (actions : List (String × Bool))
    (now : String) : TaskData :=
  { ttype := "automation", status := "running", progress := 0,
    total := state.paired_tasks.length, current := 0, logs := [],
    start_time := now, strategy := "standard", actions_enabled := actions }

/-- The synchronous part of `WebDashboard.run_automation_async`
(`src/web_dashboard.py:1129-1151`): pick the job id from the clock second,
build the `AutomationState`, and register the initial running
`TaskStatusRecord` (the worker thread itself runs afterwards). Returns the
job id, the new state and the updated task store. -/
def runAutomationAsync (store : TaskStore) (profile_name : String)
    (tweet_links reply_comments : List String) (actions : List (String × Bool))
    (min_wait max_wait max_retries : Nat) (t : Nat) (now : String) :
    String × AutomationState × TaskStore :=
  let task_id := jobId t
  let state := mkAutomationState task_id profile_name tweet_links reply_comments
    actions min_wait max_wait max_retries now
  (task_id, state, addTask store task_id (initialTaskData state actions now))

/-- External environment of one `automation_worker` run: `outcomes i` is the
result of `_process_tweet_with_retries` for the i-th processed item, and
`externalCancel i` says whether the cancel route
(`src/web_dashboard.py:2084`) set the record's status to cancelled before
the worker's status check at item boundary `i`. -/
structure WorkerEnv where
  outcomes : Nat → Bool
  externalCancel : Nat → Bool

/-- Observable events of one `automation_worker` run, in order. -/
inductive WEvent where
  | markEv (index : Nat) (success : Bool)
  | saveEv
  | statusEv (status : String)
  | cancelBreakEv
deriving DecidableEq, Repr

/-- The per-item loop of `automation_worker`
(`src/web_dashboard.py:1200-1271`): at each boundary, after any external
cancel mutation, read the record's status and break if it is cancelled;
otherwise set the progress cursor, update the status record, run the item
through the executor, mark the outcome under the item's stored
`task['index']`, and save the snapshot every third item. Log lines and
sleeps are omitted; the snapshot saves are recorded as events. -/
def workerLoop (task_id : String) (env : WorkerEnv) (now : String) (total : Nat) :
    List PairedTask → Nat → AutomationState → TaskStore →
    AutomationState × TaskStore × List WEvent
  | [], _, st, store => (st, store, [])
  | task :: rest, i, st, store =>
      let store0 := if env.externalCancel i
        then updateTask store task_id (fun d => { d with status := "cancelled" })
        else store
      if (lookupTask store0 task_id).map (fun d => d.status) = some ("cancelled") then
        (st, store0, [WEvent.cancelBreakEv])
      else
        let st1 := { st with current_index := i }
        let store1 := updateTask store0 task_id
          (fun d => { d with current := i + 1, progress := ((i + 1) * 100) / total })
        let success := env.outcomes i
        let st2 := markTaskProcessed st1 task.index success now
        let saveEvs := if (i + 1) % 3 = 0 then [WEvent.saveEv] else []
        let r := workerLoop task_id env now total rest (i + 1) st2 store1
        (r.1, r.2.1, WEvent.markEv task.index success :: saveEvs ++ r.2.2)

/-- Result of one `automation_worker` run. -/
structure WorkerResult where
  state : AutomationState
  store : TaskStore
  events : List WEvent
deriving Repr

/-- `automation_worker` (`src/web_dashboard.py:1153-1289`), successful-driver
path: compute the remaining tasks, shuffle them (the permutation is taken
as a parameter), run the per-item loop, then save the snapshot once more
and set the status record to completed — unconditionally, also when the
loop exited through the cancellation break. -/
def automationWorker (task_id : String) (state : AutomationState)
    (store : TaskStore) (env : WorkerEnv)
    (shuffle : List PairedTask → List PairedTask) (now : String) : WorkerResult :=
  let remaining := shuffle (getRemainingTasks state)
  let total := remaining.length
  let r := workerLoop task_id env now total remaining 0 state store
  let store2 := updateTask r.2.1 task_id (fun d => { d with status := "completed" })
  { state := r.1, store := store2,
    events := r.2.2 ++ [WEvent.saveEv, WEvent.statusEv ("completed")] }

/-- A full job: the synchronous registration of `run_automation_async`
followed by the `automation_worker` run on its own thread
(`src/web_dashboard.py:1129-1312`). -/
def runJob (store : TaskStore) (profile_name : String)
    (tweet_links reply_comments : List String) (actions : List (String × Bool))
    (min_wait max_wait max_retries : Nat) (t : Nat) (now : String)
    (env : WorkerEnv) (shuffle : List PairedTask → List PairedTask) :
    String × WorkerResult :=
  let r := runAutomationAsync store profile_name tweet_links reply_comments actions
    min_wait max_wait max_retries t now
  (r.1, automationWorker r.1 r.2.1 r.2.2 env shuffle now)

/-- Response of the `/api/automate` route (`src/web_dashboard.py:1802-1846`):
either an error JSON with an HTTP code, or success carrying the created
job (its id, state and the updated task store). -/
inductive StartResponse where
  | failure (error : String) (httpCode : Nat)
  | started (task_id : String) (state : AutomationState) (store : TaskStore)
deriving DecidableEq, Repr

/-- Whether a `/api/automate` response is an error response. -/
def StartResponse.isFailure : StartResponse → Bool
  | .failure _ _ => true
  | .started _ _ _ => false

/-- `start_automation` (`src/web_dashboard.py:1802-1846`): reject a missing
profile name, an empty tweet-link list, and an all-disabled action map,
each before any job is created; otherwise create the job via
`run_automation_async`. No check relates `min_wait` to `max_wait`. -/
def startAutomation (store : TaskStore) (profile_name : String)
    (tweet_links reply_comments : List String) (actions : List (String × Bool))
    (min_wait max_wait max_retries : Nat) (t : Nat) (now : String) : StartResponse :=
  if profile_name = "" then
    .failure ("Profile name is required") 400
  else if tweet_links = [] then
    .failure ("Tweet links are required") 400
  else if ¬ (actions.any (fun a => a.2)) then
    .failure ("At least one action must be selected") 400
  else
    let r := runAutomationAsync store profile_name tweet_links reply_comments actions
      min_wait max_wait max_retries t now
    .started r.1 r.2.1 r.2.2

/-- The persisted snapshot files, keyed by task id (one file
`automation_state_{task_id}.json` per id). -/
abbrev SnapshotFiles := List (String × StateData)

/-- File lookup performed by `AutomationState.load_state`
(`src/web_dashboard.py:783-789`). -/
def lookupSnapshot : SnapshotFiles → String → Option StateData
  | [], _ => none
  | (k, v) :: rest, id => if k = id then some v else lookupSnapshot rest id

/-- `AutomationState.cleanup` (`src/web_dashboard.py:824-828`): delete the
snapshot keyed by the task id (a no-op when absent). -/
def deleteSnapshot (files : SnapshotFiles) (task_id : String) : SnapshotFiles :=
  files.filter (fun p => p.1 ≠ task_id)

/-- Response of the `/api/automation/recover/<task_id>` route
(`src/web_dashboard.py:1903-1961`). -/
inductive RecoverResponse where
  | failure (error : String) (httpCode : Nat)
  | started (new_task_id : String) (new_state : AutomationState)
      (remaining_count : Nat)
deriving DecidableEq, Repr

/-- Outcome of one recover call: the HTTP response plus the snapshot files
and the task store after the call. -/
structure RecoverOutcome where
  response : RecoverResponse
  files : SnapshotFiles
  store : TaskStore
deriving Repr

/-- `recover_automation` (`src/web_dashboard.py:1903-1961`): load the
snapshot (404 when absent), reject when the status record shows running,
recompute the remainder with the same enumerate-position filter as
`get_remaining_tasks` (the route inlines the identical comprehension at
lines 1924-1929), reject when it is empty, otherwise start a new job on
the remaining tweet/comment lists via `run_automation_async` and delete
the old snapshot. -/
def recoverAutomation (files : SnapshotFiles) (store : TaskStore)
    (task_id : String) (t : Nat) (now : String) : RecoverOutcome :=
  match lookupSnapshot files task_id with
  | none => ⟨.failure ("No saved state found for recovery") 404, files, store⟩
  | some d =>
    let state := loadState d now
    if (lookupTask store task_id).map (fun r => r.status) = some ("running") then
      ⟨.failure ("Task is already running") 400, files, store⟩
    else
      let remaining := state.paired_tasks.enum.filterMap
        (fun p => if p.1 ∈ state.processed_tasks then none else some p.2)
      let remaining_tweets := remaining.map (fun x => x.tweet_url)
      let remaining_comments := remaining.map (fun x => x.comment)
      if remaining_tweets = [] then
        ⟨.failure ("No remaining tweets to process") 400, files, store⟩
      else
        let r := runAutomationAsync store state.profile_name remaining_tweets
          remaining_comments state.actions state.min_wait state.max_wait
          state.max_retries t now
        ⟨.started r.1 r.2.1 remaining_tweets.length,
         deleteSnapshot files state.task_id, r.2.2⟩

/-- Contents a concurrent reader can find in a state file at some instant:
no file, a freshly truncated empty file, a complete job snapshot, or the
complete task-status store. -/
inductive FileData where
  | emptyFile
  | snapshotJson (d : StateData)
  | taskStateJson (tasks : TaskStore)
deriving DecidableEq, Repr

/-- Primitive file-system operations performed by the persistence code. -/
inductive FileOp where
  | openTruncate (path : String)
  | writeFile (path : String) (d : FileData)
  | renameFile (src dst : String)
deriving DecidableEq, Repr

/-- File-system operations of `AutomationState.save_state`
(`src/web_dashboard.py:777-778`): `open(state_file, 'w')` truncates the
destination file in place, then `json.dump` writes the snapshot into it.
No temporary file and no rename is involved. -/
def saveStateOps (s : AutomationState) : List FileOp :=
  [FileOp.openTruncate (stateFileName s.task_id),
   FileOp.writeFile (stateFileName s.task_id) (FileData.snapshotJson (saveState s))]

/-- File-system operations of `TaskStateManager.save_state`
(`src/web_dashboard.py:180-192`): the same truncate-then-write in place on
`task_state.json`. -/
def taskManagerSaveOps (tasks : TaskStore) : List FileOp :=
  [FileOp.openTruncate ("task_state.json"),
   FileOp.writeFile ("task_state.json") (FileData.taskStateJson tasks)]

/-- Effect of one file operation on the file system (paths mapped to
contents). -/
def applyFileOp (fs : List (String × FileData)) : FileOp → List (String × FileData)
  | .openTruncate p => (p, FileData.emptyFile) :: fs.filter (fun q => q.1 ≠ p)
  | .writeFile p d => (p, d) :: fs.filter (fun q => q.1 ≠ p)
  | .renameFile src dst =>
      match (fs.filter (fun q => q.1 = src)).head? with
      | none => fs
      | some (_, v) => (dst, v) :: (fs.filter (fun q => q.1 ≠ src ∧ q.1 ≠ dst))

/-- What a concurrent reader of path `p` observes. -/
def readFile (fs : List (String × FileData)) (p : String) : Option FileData :=
  ((fs.filter (fun q => q.1 = p)).head?).map (fun q => q.2)

/-- Whether a trace of file operations ever renames a file onto the given
destination (the temp-file-and-rename idiom the spec requires). -/
def usesRenameOnto (ops : List FileOp) (path : String) : Bool :=
  ops.any (fun op => match op with
    | .renameFile _ dst => dst = path
    | _ => false)

/-! ### Helper lemmas about the set model and the stores -/

theorem mem_setAdd_self (s : List Nat) (x : Nat) : x ∈ setAdd s x := by
  unfold setAdd
  split
  · assumption
  · simp

theorem subset_setAdd (s : List Nat) (x : Nat) : s ⊆ setAdd s x := by
  unfold setAdd
  split
  · exact fun _ h => h
  · exact fun _ h => List.mem_append_left _ h

theorem setAdd_of_not_mem {s : List Nat} {x : Nat} (h : x ∉ s) :
    setAdd s x = s ++ [x] := by
  unfold setAdd
  simp [h]

theorem foldl_setAdd_of_nodup :
    ∀ (l acc : List Nat), l.Nodup → (∀ x ∈ l, x ∉ acc) →
      l.foldl setAdd acc = acc ++ l
  | [], acc, _, _ => by simp
  | a :: l, acc, h, h2 => by
    have ha : a ∉ acc := h2 a (List.mem_cons_self a l)
    rw [List.foldl_cons, setAdd_of_not_mem ha,
      foldl_setAdd_of_nodup l (acc ++ [a]) (List.Nodup.of_cons h) ?_]
    · simp
    · intro x hx
      simp only [List.mem_append, List.mem_singleton]
      rintro (hxa | hxa)
      · exact h2 x (List.mem_cons_of_mem a hx) hxa
      · subst hxa
        exact (List.nodup_cons.mp h).1 hx

theorem map_index_filterMap_pairedTaskAt (t a : List String) :
    ∀ l : List Nat,
      (l.filterMap (pairedTaskAt t a)).map PairedTask.index =
        l.filter (fun i => decide (pyStrip (t.getD i "") ≠ ""))
  | [] => rfl
  | i :: l => by
    rw [List.filterMap_cons, List.filter_cons]
    by_cases h : pyStrip (t.getD i "") ≠ ""
    · have he : pairedTaskAt t a i = some
          { index := i, tweet_url := pyStrip (t.getD i ""),
            comment := pyStrip (a.getD i ""), original_tweet_index := i,
            original_comment_index := i } := by
        unfold pairedTaskAt
        rw [if_pos h]
      rw [he, if_pos (decide_eq_true h), List.map_cons,
        map_index_filterMap_pairedTaskAt t a l]
    · have he : pairedTaskAt t a i = none := by
        unfold pairedTaskAt
        rw [if_neg h]
      rw [he, if_neg (by simpa using h), map_index_filterMap_pairedTaskAt t a l]

theorem mem_createPairedTasks {t a : List String} {it : PairedTask} :
    it ∈ createPairedTasks t a ↔
      it.index < max t.length a.length ∧
      pyStrip (t.getD it.index "") ≠ "" ∧
      it = { index := it.index, tweet_url := pyStrip (t.getD it.index ""),
             comment := pyStrip (a.getD it.index ""),
             original_tweet_index := it.index,
             original_comment_index := it.index } := by
  unfold createPairedTasks
  rw [List.mem_filterMap]
  constructor
  · rintro ⟨i, hi, hfi⟩
    rw [List.mem_range] at hi
    unfold pairedTaskAt at hfi
    by_cases h : pyStrip (t.getD i "") ≠ ""
    · rw [if_pos h] at hfi
      have := Option.some.inj hfi
      subst this
      exact ⟨hi, h, rfl⟩
    · rw [if_neg h] at hfi
      exact absurd hfi (by simp)
  · rintro ⟨h1, h2, h3⟩
    refine ⟨it.index, List.mem_range.mpr h1, ?_⟩
    unfold pairedTaskAt
    rw [if_pos h2]
    exact congrArg some h3.symm

theorem setOfList_eq_self {l : List Nat} (h : l.Nodup) : setOfList l = l := by
  unfold setOfList
  rw [foldl_setAdd_of_nodup l [] h (by simp)]
  simp

theorem lookupTask_addTask_self :
    ∀ (store : TaskStore) (id : String) (d : TaskData),
      lookupTask (addTask store id d) id = some d
  | [], id, d => by simp [addTask, lookupTask]
  | (k, v) :: rest, id, d => by
    by_cases h : k = id
    · simp [addTask, lookupTask, h]
    · simp [addTask, lookupTask, h, lookupTask_addTask_self rest id d]

theorem lookupTask_updateTask :
    ∀ (store : TaskStore) (id : String) (f : TaskData → TaskData),
      lookupTask (updateTask store id f) id = (lookupTask store id).map f
  | [], id, f => by simp [updateTask, lookupTask]
  | (k, v) :: rest, id, f => by
    by_cases h : k = id
    · simp [updateTask, lookupTask, h]
    · simp [updateTask, lookupTask, h, lookupTask_updateTask rest id f]

theorem workerLoop_lookup_isSome (task_id : String) (env : WorkerEnv)
    (now : String) (total : Nat) :
    ∀ (rem : List PairedTask) (i : Nat) (st : AutomationState) (store : TaskStore),
      (lookupTask store task_id).isSome = true →
      (lookupTask (workerLoop task_id env now total rem i st store).2.1
        task_id).isSome = true
  | [], _, _, _, h => h
  | task :: rest, i, st, store, h => by
    rw [workerLoop]
    by_cases hc : env.externalCancel i
    · simp only [hc, if_true]
      split
      · rw [lookupTask_updateTask]
        simpa using h
      · exact workerLoop_lookup_isSome task_id env now total rest (i + 1) _ _
          (by rw [lookupTask_updateTask, lookupTask_updateTask]; simpa using h)
    · simp only [hc, if_false, Bool.false_eq_true]
      split
      · exact h
      · exact workerLoop_lookup_isSome task_id env now total rest (i + 1) _ _
          (by rw [lookupTask_updateTask]; simpa using h)

/-! ### Claim theorems -/

/-- The job built from `tweet_links = ["", "b"]`,
`reply_comments = ["x", "y"]` — its only work item carries stored index 1
because position 0 was dropped for an empty target — after the worker
marked that item processed under its stored index. -/
def gapJobProcessed : AutomationState :=
  markTaskProcessed
    (mkAutomationState ("automation_100") ("p") ["", "b"] ["x", "y"]
      [("like", true)] 5 15 3 ("T0"))
    1 true ("T1")

/-- C1: the claim says `remaining(work_items)` returns exactly the items
whose stable `WorkItem.index` is not in the processed set, in particular
for sequences with index gaps. The code filters on the enumerate position
instead (`get_remaining_tasks`, `src/web_dashboard.py:724`), while the
worker marks the stored `task['index']`
(`src/web_dashboard.py:1208,1234`). On the job built from
`tweet_links = ["", "b"]`, `reply_comments = ["x", "y"]` the only item has
stored index 1; after it is marked processed, `get_remaining_tasks`
returns it again (its list position 0 is not in `{1}`), whereas the
spec's index-based remainder is empty: the partition property fails and
the item would be processed twice. -/
theorem c1_remaining_filters_position_not_index :
    getRemainingTasks gapJobProcessed = gapJobProcessed.paired_tasks ∧
    specRemaining gapJobProcessed.processed_tasks gapJobProcessed.paired_tasks = [] ∧
    gapJobProcessed.paired_tasks =
      [{ index := 1, tweet_url := "b", comment := "y",
         original_tweet_index := 1, original_comment_index := 1 }] ∧
    gapJobProcessed.processed_tasks = [1] := by
  decide

/-- C2 counterexample: marking index 0 as success and then as failure
leaves 0 in both `successful_tasks` and `failed_tasks`;
`mark_task_processed` (`src/web_dashboard.py:726-733`) never removes an
index from the opposite set, so the claimed last-write-wins removal and
the disjointness `successful ∩ failed = ∅` are both false. -/
theorem c2_mark_opposite_outcome_kept :
    let s0 := mkAutomationState ("automation_1") ("p") ["a"] ["c"]
      [("like", true)] 1 2 3 ("T0")
    let s2 := markTaskProcessed (markTaskProcessed s0 0 true ("T1")) 0 false ("T2")
    s2.successful_tasks = [0] ∧ s2.failed_tasks = [0] ∧
    0 ∈ s2.successful_tasks ∧ 0 ∈ s2.failed_tasks := by
  decide

/-- C2 amended: under `mark_task_processed` all three sets only grow (the
marked index is added to `processed_tasks` and to `successful_tasks` or
`failed_tasks` according to the outcome); nothing is ever removed, so an
index marked with both outcomes stays in both sets and the
successful/failed sets are not kept disjoint. -/
theorem c2_mark_monotonic_sets_grow (s : AutomationState) (i : Nat) (b : Bool)
    (now : String) :
    s.processed_tasks ⊆ (markTaskProcessed s i b now).processed_tasks ∧
    s.successful_tasks ⊆ (markTaskProcessed s i b now).successful_tasks ∧
    s.failed_tasks ⊆ (markTaskProcessed s i b now).failed_tasks ∧
    i ∈ (markTaskProcessed s i b now).processed_tasks ∧
    (if b then i ∈ (markTaskProcessed s i b now).successful_tasks
     else i ∈ (markTaskProcessed s i b now).failed_tasks) := by
  cases b
  · exact ⟨subset_setAdd _ _, fun _ h => h, subset_setAdd _ _,
      mem_setAdd_self _ _, mem_setAdd_self _ _⟩
  · exact ⟨subset_setAdd _ _, subset_setAdd _ _, fun _ h => h,
      mem_setAdd_self _ _, mem_setAdd_self _ _⟩

/-- C6: `_create_paired_tasks` emits items with strictly increasing stored
index, each below `max(len(targets), len(comments))`, with no duplicate
index; the stored target and comment are the positional inputs stripped
of surrounding whitespace; an index is present exactly when its stripped
target is non-empty (an empty stripped target leaves a gap); and empty
inputs produce the empty sequence. -/
theorem c6_paired_task_builder_spec (targets comments : List String) :
    (createPairedTasks targets comments).Pairwise (fun x y => x.index < y.index) ∧
    ((createPairedTasks targets comments).map PairedTask.index).Nodup ∧
    (∀ it ∈ createPairedTasks targets comments,
       it.index < max targets.length comments.length ∧
       it.tweet_url = pyStrip (targets.getD it.index "") ∧
       it.comment = pyStrip (comments.getD it.index "")) ∧
    (∀ i : Nat, (∃ it ∈ createPairedTasks targets comments, it.index = i) ↔
       (i < max targets.length comments.length ∧
        pyStrip (targets.getD i "") ≠ "")) ∧
    createPairedTasks [] [] = ([] : List PairedTask) := by
  have hmap : (createPairedTasks targets comments).map PairedTask.index =
      (List.range (max targets.length comments.length)).filter
        (fun i => decide (pyStrip (targets.getD i "") ≠ "")) :=
    map_index_filterMap_pairedTaskAt targets comments _
  refine ⟨?_, ?_, ?_, ?_, rfl⟩
  · have hp : ((createPairedTasks targets comments).map PairedTask.index).Pairwise
        (· < ·) := by
      rw [hmap]
      exact (List.pairwise_lt_range _).sublist (List.filter_sublist _)
    exact List.pairwise_map.mp hp
  · rw [hmap]
    exact (List.nodup_range _).filter _
  · intro it hit
    obtain ⟨h1, _, h3⟩ := mem_createPairedTasks.mp hit
    refine ⟨h1, ?_, ?_⟩
    · rw [h3]
    · rw [h3]
  · intro i
    constructor
    · rintro ⟨it, hit, rfl⟩
      obtain ⟨h1, h2, _⟩ := mem_createPairedTasks.mp hit
      exact ⟨h1, h2⟩
    · rintro ⟨h1, h2⟩
      refine ⟨{ index := i, tweet_url := pyStrip (targets.getD i ""),
                comment := pyStrip (comments.getD i ""),
                original_tweet_index := i, original_comment_index := i },
              ?_, rfl⟩
      exact mem_createPairedTasks.mpr ⟨h1, h2, rfl⟩

/-- C3: recovery must not re-run processed items. On the persisted job
built from `tweet_links = ["", "b"]`, `reply_comments = ["x", "y"]`, whose
only work item (stored index 1) is marked processed, the spec's remainder
is empty; yet `recover_automation` (`src/web_dashboard.py:1923-1949`)
recomputes the remainder with the enumerate-position filter, finds the
processed item again, starts a new job containing the already-processed
pair `("b", "y")` and deletes the old snapshot. -/
theorem c3_recover_restarts_processed_item :
    specRemaining gapJobProcessed.processed_tasks gapJobProcessed.paired_tasks = [] ∧
    (recoverAutomation [(("automation_100"), saveState gapJobProcessed)] []
        ("automation_100") 200 ("T2")).response =
      RecoverResponse.started ("automation_200")
        (mkAutomationState ("automation_200") ("p") ["b"] ["y"]
          [("like", true)] 5 15 3 ("T2")) 1 ∧
    (mkAutomationState ("automation_200") ("p") ["b"] ["y"]
      [("like", true)] 5 15 3 ("T2")).paired_tasks.map
        (fun it => (it.tweet_url, it.comment)) = [(("b"), ("y"))] ∧
    (recoverAutomation [(("automation_100"), saveState gapJobProcessed)] []
        ("automation_100") 200 ("T2")).files = [] := by
  refine ⟨by decide, by decide, by decide, by decide⟩

/-- C4: loading a snapshot produced by a save reconstructs the job equal to
the saved one on every persisted field — the work items are restored
verbatim from the snapshot (overwriting the constructor's re-derived
list, so gaps and trimming are preserved exactly), the three index sets,
the action map and the timing policy are restored — and re-serializing
the loaded job yields a snapshot identical to the first. The hypotheses
state that the three set-lists are duplicate-free, which holds for every
set iteration order Python can write. -/
theorem c4_save_load_roundtrip (s : AutomationState) (now : String)
    (hp : s.processed_tasks.Nodup) (hs : s.successful_tasks.Nodup)
    (hf : s.failed_tasks.Nodup) :
    (loadState (saveState s) now).task_id = s.task_id ∧
    (loadState (saveState s) now).profile_name = s.profile_name ∧
    (loadState (saveState s) now).paired_tasks = s.paired_tasks ∧
    (loadState (saveState s) now).actions = s.actions ∧
    (loadState (saveState s) now).min_wait = s.min_wait ∧
    (loadState (saveState s) now).max_wait = s.max_wait ∧
    (loadState (saveState s) now).max_retries = s.max_retries ∧
    (loadState (saveState s) now).processed_tasks = s.processed_tasks ∧
    (loadState (saveState s) now).successful_tasks = s.successful_tasks ∧
    (loadState (saveState s) now).failed_tasks = s.failed_tasks ∧
    (loadState (saveState s) now).current_index = s.current_index ∧
    (loadState (saveState s) now).start_time = s.start_time ∧
    (loadState (saveState s) now).last_updated = s.last_updated ∧
    saveState (loadState (saveState s) now) = saveState s := by
  have h1 : setOfList s.processed_tasks = s.processed_tasks := setOfList_eq_self hp
  have h2 : setOfList s.successful_tasks = s.successful_tasks := setOfList_eq_self hs
  have h3 : setOfList s.failed_tasks = s.failed_tasks := setOfList_eq_self hf
  refine ⟨rfl, rfl, rfl, rfl, rfl, rfl, rfl, ?_, ?_, ?_, rfl, rfl, rfl, ?_⟩
  · exact h1
  · exact h2
  · exact h3
  · simp [saveState, loadState, mkAutomationState, getProgressStats, h1, h2, h3]

/-- Concrete state used to witness the round-trip theorem: a three-item job
with an index gap, one success and one failure recorded. -/
def c4WitnessState : AutomationState :=
  markTaskProcessed
    (markTaskProcessed
      (mkAutomationState ("automation_9") ("p") ["a", "", "c"] ["x", "y", "z"]
        [("like", true), ("reply", false)] 1 2 3 ("T0"))
      2 true ("T1"))
    0 false ("T2")

/-- C4 witness: the round-trip theorem applied to a concrete job whose
snapshot has an index gap and non-empty progress sets. -/
theorem c4_save_load_roundtrip_witness :
    c4WitnessState.processed_tasks.Nodup ∧
    c4WitnessState.successful_tasks.Nodup ∧
    c4WitnessState.failed_tasks.Nodup ∧
    ((loadState (saveState c4WitnessState) ("T3")).task_id = c4WitnessState.task_id ∧
     (loadState (saveState c4WitnessState) ("T3")).profile_name = c4WitnessState.profile_name ∧
     (loadState (saveState c4WitnessState) ("T3")).paired_tasks = c4WitnessState.paired_tasks ∧
     (loadState (saveState c4WitnessState) ("T3")).actions = c4WitnessState.actions ∧
     (loadState (saveState c4WitnessState) ("T3")).min_wait = c4WitnessState.min_wait ∧
     (loadState (saveState c4WitnessState) ("T3")).max_wait = c4WitnessState.max_wait ∧
     (loadState (saveState c4WitnessState) ("T3")).max_retries = c4WitnessState.max_retries ∧
     (loadState (saveState c4WitnessState) ("T3")).processed_tasks = c4WitnessState.processed_tasks ∧
     (loadState (saveState c4WitnessState) ("T3")).successful_tasks = c4WitnessState.successful_tasks ∧
     (loadState (saveState c4WitnessState) ("T3")).failed_tasks = c4WitnessState.failed_tasks ∧
     (loadState (saveState c4WitnessState) ("T3")).current_index = c4WitnessState.current_index ∧
     (loadState (saveState c4WitnessState) ("T3")).start_time = c4WitnessState.start_time ∧
     (loadState (saveState c4WitnessState) ("T3")).last_updated = c4WitnessState.last_updated ∧
     saveState (loadState (saveState c4WitnessState) ("T3")) = saveState c4WitnessState) :=
  ⟨by decide, by decide, by decide,
   c4_save_load_roundtrip c4WitnessState ("T3") (by decide) (by decide) (by decide)⟩

/-- The job built from `tweet_links = ["", "", "c"]`,
`reply_comments = ["", "", "z"]` — its only work item carries stored index
2 — after that item was marked processed under its stored index. -/
def gapJobTailProcessed : AutomationState :=
  markTaskProcessed
    (mkAutomationState ("automation_300") ("p") ["", "", "c"] ["", "", "z"]
      [("like", true)] 5 15 3 ("T0"))
    2 true ("T1")

/-- C5: the claim requires `NothingRemaining` exactly when the snapshot's
remaining set is empty, with no job created and no state deleted in every
error case. On the snapshot whose only work item (stored index 2, built
from `tweet_links = ["", "", "c"]`) is marked processed, the spec's
remaining set is empty, yet `recover_automation`
(`src/web_dashboard.py:1923-1949`) — filtering by enumerate position —
treats the item as remaining, returns success, creates a new job and
deletes the old snapshot. -/
theorem c5_recover_ignores_empty_spec_remainder :
    specRemaining gapJobTailProcessed.processed_tasks
      gapJobTailProcessed.paired_tasks = [] ∧
    (recoverAutomation [(("automation_300"), saveState gapJobTailProcessed)] []
        ("automation_300") 400 ("T2")).response =
      RecoverResponse.started ("automation_400")
        (mkAutomationState ("automation_400") ("p") ["c"] ["z"]
          [("like", true)] 5 15 3 ("T2")) 1 ∧
    (recoverAutomation [(("automation_300"), saveState gapJobTailProcessed)] []
        ("automation_300") 400 ("T2")).files = [] := by
  refine ⟨by decide, by decide, by decide⟩

/-- C7 counterexample: a run that observes a cancellation at the first item
boundary breaks out of the loop, yet the post-loop code of
`automation_worker` (`src/web_dashboard.py:1279`) unconditionally sets the
TaskStatusRecord to completed, overwriting the cancelled status — the
claim says a cancelled run is never subsequently marked completed. -/
theorem c7_cancelled_run_marked_completed :
    let env : WorkerEnv := ⟨fun _ => true, fun i => i == 0⟩
    let r := runJob [] ("p") ["a", "b"] ["x", "y"] [("like", true)] 1 2 3 100
      ("T") env id
    WEvent.cancelBreakEv ∈ r.2.events ∧
    (lookupTask r.2.store r.1).map (fun d => d.status) = some ("completed") := by
  refine ⟨by decide, by decide⟩

/-- C7 amended: for every run of the worker — whether the loop exhausted the
remaining items or exited early on an observed cancellation — the final
status of the job's TaskStatusRecord is completed (the post-loop update
overwrites a cancelled status), and the job snapshot is saved exactly
once more after the loop, immediately before that status update. -/
theorem c7_final_status_always_completed (store : TaskStore)
    (profile_name : String) (tweet_links reply_comments : List String)
    (actions : List (String × Bool)) (min_wait max_wait max_retries t : Nat)
    (now : String) (env : WorkerEnv)
    (shuffle : List PairedTask → List PairedTask) :
    (lookupTask
        (runJob store profile_name tweet_links reply_comments actions
          min_wait max_wait max_retries t now env shuffle).2.store
        (runJob store profile_name tweet_links reply_comments actions
          min_wait max_wait max_retries t now env shuffle).1).map
      (fun d => d.status) = some ("completed") ∧
    ∃ pre, (runJob store profile_name tweet_links reply_comments actions
        min_wait max_wait max_retries t now env shuffle).2.events =
      pre ++ [WEvent.saveEv, WEvent.statusEv ("completed")] := by
  constructor
  · simp only [runJob, runAutomationAsync, automationWorker]
    rw [lookupTask_updateTask]
    have h1 : (lookupTask (addTask store (jobId t)
        (initialTaskData (mkAutomationState (jobId t) profile_name tweet_links
          reply_comments actions min_wait max_wait max_retries now) actions now))
        (jobId t)).isSome = true := by
      rw [lookupTask_addTask_self]
      rfl
    obtain ⟨d, hd⟩ := Option.isSome_iff_exists.mp
      (workerLoop_lookup_isSome (jobId t) env now _ _ 0 _ _ h1)
    rw [hd]
    rfl
  · exact ⟨_, rfl⟩

/-- C8 counterexample: a request with `min_wait = 10 > 5 = max_wait` (and a
valid profile, a non-empty target list and an enabled action) is accepted
by `start_automation` (`src/web_dashboard.py:1802-1846`): the job, its
state and its status record are created, no ValidationError is returned.
The bad range only surfaces later, inside the worker, when
`random.randint(min_wait, max_wait)` raises at the first inter-item wait
(`src/web_dashboard.py:1266`). -/
theorem c8_min_wait_exceeding_max_not_rejected :
    10 > 5 ∧
    (startAutomation [] ("p") ["https://x.com/u/status/1"] ["hi"]
      [("like", true)] 10 5 3 0 ("T")).isFailure = false := by
  refine ⟨by decide, by decide⟩

/-- C8 amended: of the three invalid-input classes the claim lists, the
empty target list and the all-disabled action map are rejected
synchronously with an error response before any job, job state or worker
is created (the failure response carries no created job), and the input
is not corrected; `min_wait > max_wait` is not validated at all. -/
theorem c8_empty_targets_or_no_action_rejected (store : TaskStore)
    (profile_name : String) (tweet_links reply_comments : List String)
    (actions : List (String × Bool)) (min_wait max_wait max_retries t : Nat)
    (now : String)
    (h : tweet_links = [] ∨ actions.any (fun a => a.2) = false) :
    (startAutomation store profile_name tweet_links reply_comments actions
      min_wait max_wait max_retries t now).isFailure = true := by
  unfold startAutomation
  by_cases hp : profile_name = ""
  · rw [if_pos hp]
    rfl
  · rw [if_neg hp]
    rcases h with h | h
    · rw [if_pos h]
      rfl
    · by_cases ht : tweet_links = []
      · rw [if_pos ht]
        rfl
      · rw [if_neg ht, if_pos (by simp [h])]
        rfl

/-- C8 witness: the rejection theorem applied to a concrete request with an
empty target list. -/
theorem c8_empty_targets_or_no_action_rejected_witness :
    (([] : List String) = [] ∨
      ([(("like"), true)] : List (String × Bool)).any (fun a => a.2) = false) ∧
    (startAutomation [] ("p") [] [] [(("like"), true)] 1 2 3 0
      ("T")).isFailure = true :=
  ⟨Or.inl rfl,
   c8_empty_targets_or_no_action_rejected [] ("p") [] [] [(("like"), true)]
     1 2 3 0 ("T") (Or.inl rfl)⟩

/-- C9 counterexample: `AutomationState.save_state` writes by truncating the
destination file in place and then writing the new contents
(`src/web_dashboard.py:777-778`); its operation trace contains no rename,
and a reader who runs between the truncate and the write observes an
empty file — neither the old snapshot nor the new one — so a save is not
atomic from a concurrent reader's perspective. -/
theorem c9_reader_observes_truncated_snapshot :
    let sOld := mkAutomationState ("automation_500") ("p") ["a"] ["x"]
      [("like", true)] 1 2 3 ("T0")
    let sNew := markTaskProcessed sOld 0 true ("T1")
    let path := stateFileName ("automation_500")
    usesRenameOnto (saveStateOps sNew) path = false ∧
    saveStateOps sNew = [FileOp.openTruncate path,
      FileOp.writeFile path (FileData.snapshotJson (saveState sNew))] ∧
    readFile (applyFileOp [(path, FileData.snapshotJson (saveState sOld))]
      (FileOp.openTruncate path)) path = some FileData.emptyFile ∧
    FileData.emptyFile ≠ FileData.snapshotJson (saveState sOld) ∧
    FileData.emptyFile ≠ FileData.snapshotJson (saveState sNew) := by
  refine ⟨by decide, by rfl, by decide, by intro h; exact FileData.noConfusion h,
    by intro h; exact FileData.noConfusion h⟩

/-- C9 amended: every job-snapshot save and every task-status-store save
writes directly to the final path by truncating it and then writing the
full contents; no temporary location or rename is used, a reader between
the two steps observes an empty (partially-written) file, and only after
the final write does a reader see the new snapshot. -/
theorem c9_save_writes_in_place_without_rename (s : AutomationState)
    (tasks : TaskStore) (old : FileData) (fs : List (String × FileData)) :
    saveStateOps s = [FileOp.openTruncate (stateFileName s.task_id),
      FileOp.writeFile (stateFileName s.task_id)
        (FileData.snapshotJson (saveState s))] ∧
    usesRenameOnto (saveStateOps s) (stateFileName s.task_id) = false ∧
    taskManagerSaveOps tasks = [FileOp.openTruncate ("task_state.json"),
      FileOp.writeFile ("task_state.json") (FileData.taskStateJson tasks)] ∧
    usesRenameOnto (taskManagerSaveOps tasks) ("task_state.json") = false ∧
    readFile (applyFileOp [(stateFileName s.task_id, old)]
      (FileOp.openTruncate (stateFileName s.task_id)))
      (stateFileName s.task_id) = some FileData.emptyFile ∧
    readFile ((saveStateOps s).foldl applyFileOp fs) (stateFileName s.task_id) =
      some (FileData.snapshotJson (saveState s)) := by
  refine ⟨rfl, by simp [usesRenameOnto, saveStateOps], rfl,
    by simp [usesRenameOnto, taskManagerSaveOps], ?_, ?_⟩
  · simp [applyFileOp, readFile]
  · simp [saveStateOps, applyFileOp, readFile]

/-- C10: the job id of `run_automation_async`
(`src/web_dashboard.py:1132`) is the pure function
`"automation_" + str(int(time.time()))` of the whole-second clock value,
so two job starts observing the same clock second get the same id; the
second `add_task` then replaces the first job's TaskStatusRecord in the
store, and both jobs' snapshot saves target the same
`automation_state_<id>.json` file — job-id uniqueness is not guaranteed. -/
theorem c10_job_id_collision_same_second (store : TaskStore)
    (p1 p2 : String) (tw1 c1 tw2 c2 : List String)
    (a1 a2 : List (String × Bool)) (mn1 mx1 mr1 mn2 mx2 mr2 t : Nat)
    (n1 n2 : String) :
    (runAutomationAsync store p1 tw1 c1 a1 mn1 mx1 mr1 t n1).1 =
      (runAutomationAsync (runAutomationAsync store p1 tw1 c1 a1 mn1 mx1 mr1
        t n1).2.2 p2 tw2 c2 a2 mn2 mx2 mr2 t n2).1 ∧
    (runAutomationAsync store p1 tw1 c1 a1 mn1 mx1 mr1 t n1).1 = jobId t ∧
    lookupTask (runAutomationAsync (runAutomationAsync store p1 tw1 c1 a1 mn1
        mx1 mr1 t n1).2.2 p2 tw2 c2 a2 mn2 mx2 mr2 t n2).2.2 (jobId t) =
      some (initialTaskData (mkAutomationState (jobId t) p2 tw2 c2 a2 mn2 mx2
        mr2 n2) a2 n2) ∧
    stateFileName (runAutomationAsync store p1 tw1 c1 a1 mn1 mx1 mr1 t
        n1).2.1.task_id =
      stateFileName (runAutomationAsync (runAutomationAsync store p1 tw1 c1 a1
        mn1 mx1 mr1 t n1).2.2 p2 tw2 c2 a2 mn2 mx2 mr2 t n2).2.1.task_id := by
  refine ⟨rfl, rfl, ?_, rfl⟩
  exact lookupTask_addTask_self _ _ _

end Xauto
